import Mathlib

/-!
Shallow embedding of the coregx/pubsub delivery engine.

Conventions used throughout:
* Go `time.Time` instants and `time.Duration` values are modelled as `Int`
  nanoseconds on one global clock; each Go call to `time.Now()` inside a
  method becomes an explicit `now : Int` parameter (one instant per method
  call, which collapses the sub-microsecond gap between consecutive
  `time.Now()` calls inside a single Go method).
* Go `sql.NullTime` / `sql.NullString` become `Option Int` / `Option String`.
* Go `error` values are modelled by their message `String` (an `error` is
  `Option String`, `none` meaning nil).
* Go byte strings used as opaque payloads (`message.Data`) are modelled as
  `List Nat` (each entry a byte value `< 256`).
* Repository / gateway collaborators are modelled by explicit environment
  records giving the outcome of each external call the code makes.
-/

namespace Pubsub

/-- One second in nanoseconds (`time.Second`). -/
def Second : Int := 1000000000

/-- One minute in nanoseconds (`time.Minute`). -/
def Minute : Int := 60 * Second

/-- One hour in nanoseconds (`time.Hour`). -/
def Hour : Int := 60 * Minute

/-- Go `QueueStatus` from `model/dead_letter_queue.go`: the lifecycle state of a
queue item (`"pending"`, `"sent"`, `"failed"`). -/
inductive QueueStatus
  | pending
  | sent
  | failed
deriving DecidableEq, Repr

/-- Go `DomainError` from `model/dead_letter_queue.go`: a domain-level business
rule violation with an error code and a human-readable message. -/
structure DomainError where
  code : String
  message : String
deriving DecidableEq, Repr

/-- Go `ErrQueueItemExpired` domain error constant. -/
def ErrQueueItemExpired : DomainError :=
  { code := "QUEUE_EXPIRED", message := "Queue item has expired" }

/-- Go `ErrQueueItemAlreadySent` domain error constant. -/
def ErrQueueItemAlreadySent : DomainError :=
  { code := "ALREADY_SENT", message := "Queue item already sent" }

/-- Go `ErrMaxAttemptsExceeded` domain error constant. -/
def ErrMaxAttemptsExceeded : DomainError :=
  { code := "MAX_ATTEMPTS", message := "Maximum delivery attempts exceeded" }

/-- Go `ErrNotReadyForRetry` domain error constant. -/
def ErrNotReadyForRetry : DomainError :=
  { code := "NOT_READY", message := "Not ready for retry yet" }

/-- Go `ErrNoRetryScheduled` domain error constant. -/
def ErrNoRetryScheduled : DomainError :=
  { code := "NO_RETRY", message := "No retry scheduled" }

/-- Go `model.Queue`: a message queued for delivery to a subscriber, with retry
state, timing information and error tracking. Field-for-field translation of
the Go struct (ints for ids, `Option` for the nullable columns, legacy fields
included). -/
structure Queue where
  id : Int
  subscriptionID : Int
  messageID : Int
  status : QueueStatus
  attemptCount : Int
  lastAttemptAt : Option Int
  nextRetryAt : Option Int
  lastError : Option String
  expiresAt : Int
  sequenceNumber : Int
  operationTimestamp : Int
  retryAt : Option Int
  isComplete : Bool
  completedAt : Option Int
  createdAt : Int
deriving DecidableEq, Repr

/-- Go `model.NewQueue`: creates a queue item in state PENDING with
`AttemptCount = 0`, `NextRetryAt = now` (ready immediately) and a default
24-hour expiry. `now` stands for the `time.Now()` call at the top of the Go
function. -/
def NewQueue (subscriptionID messageID : Int) (now : Int) : Queue :=
  { id := 0
    subscriptionID := subscriptionID
    messageID := messageID
    status := QueueStatus.pending
    attemptCount := 0
    lastAttemptAt := none
    nextRetryAt := some now
    lastError := none
    expiresAt := now + 24 * Hour
    sequenceNumber := 0
    operationTimestamp := now
    retryAt := some now
    isComplete := false
    completedAt := none
    createdAt := now }

/-- Go `Queue.SetComplete`: marks the item complete (legacy) — stamps
`CompletedAt`, sets `IsComplete` and `Status = SENT`. -/
def Queue.SetComplete (t : Queue) (now : Int) : Queue :=
  { t with completedAt := some now, isComplete := true, status := QueueStatus.sent }

/-- Go `Queue.MarkFailed`: marks the item failed and schedules the next retry.
Sets `Status = FAILED`, increments `AttemptCount`, stamps
`LastAttemptAt = now`, sets `NextRetryAt = now + retryAfter`, and stores the
error message into `LastError` only when the error is non-nil (the Go code
has no else branch: a nil error leaves `LastError` untouched). -/
def Queue.MarkFailed (t : Queue) (err : Option String) (retryAfter : Int) (now : Int) : Queue :=
  { t with
    status := QueueStatus.failed
    attemptCount := t.attemptCount + 1
    lastAttemptAt := some now
    nextRetryAt := some (now + retryAfter)
    lastError := match err with
      | some msg => some msg
      | none => t.lastError }

/-- Go `Queue.MarkSent`: marks the item successfully delivered. Sets
`Status = SENT`, stamps `LastAttemptAt = now`, then calls `SetComplete` for
the legacy fields (both `time.Now()` calls collapse to the same `now`). -/
def Queue.MarkSent (t : Queue) (now : Int) : Queue :=
  Queue.SetComplete { t with status := QueueStatus.sent, lastAttemptAt := some now } now

/-- Go `Queue.IsExpired`: `time.Now().After(t.ExpiresAt)`, i.e. strictly after
the expiry instant. -/
def Queue.IsExpired (t : Queue) (now : Int) : Bool :=
  decide (t.expiresAt < now)

/-- Go `Queue.ShouldRetry`: true iff `Status = FAILED`, `NextRetryAt` is valid,
and `time.Now().After(NextRetryAt)` (strict). -/
def Queue.ShouldRetry (t : Queue) (now : Int) : Bool :=
  if t.status ≠ QueueStatus.failed then false
  else
    match t.nextRetryAt with
    | none => false
    | some retryAt => decide (retryAt < now)

/-- Go `Queue.CanAttemptDelivery`: validates whether delivery can be attempted.
Returns the first applicable domain error in the source's check order
(expired, already sent, max attempts, not ready) or `none` for ok. -/
def Queue.CanAttemptDelivery (t : Queue) (maxAttempts : Int) (now : Int) : Option DomainError :=
  if t.IsExpired now then some ErrQueueItemExpired
  else if t.status = QueueStatus.sent then some ErrQueueItemAlreadySent
  else if maxAttempts ≤ t.attemptCount then some ErrMaxAttemptsExceeded
  else if t.status = QueueStatus.failed ∧ t.ShouldRetry now = false then some ErrNotReadyForRetry
  else none

/-- Go `Queue.ShouldMoveToDLQ`: `AttemptCount >= dlqThreshold && Status = FAILED`. -/
def Queue.ShouldMoveToDLQ (t : Queue) (dlqThreshold : Int) : Bool :=
  decide (dlqThreshold ≤ t.attemptCount) && decide (t.status = QueueStatus.failed)

/-- Go `retry.Strategy`: retry behaviour configuration. `ExponentialBase` is a
Go `float64`; it is modelled as an exact rational, which agrees with the
`float64` computation for the base-2.0 strategies this repository uses (a
product of an integer number of nanoseconds with a power of two is exact in
`float64` until it overflows, and the overflow-to-infinity case lands in the
same `MaxDelay` cap branch). -/
structure Strategy where
  maxAttempts : Int
  baseDelay : Int
  maxDelay : Int
  exponentialBase : ℚ
  dlqThreshold : Int
deriving DecidableEq, Repr

/-- Go `retry.DefaultStrategy`: 10 max attempts, 30s base delay, 30m max delay,
exponential base 2.0, DLQ after 5 attempts. -/
def DefaultStrategy : Strategy :=
  { maxAttempts := 10
    baseDelay := 30 * Second
    maxDelay := 30 * Minute
    exponentialBase := 2
    dlqThreshold := 5 }

/-- Go `Strategy.CalculateRetryDelay`:
`if attemptNumber <= 0 return BaseDelay`; otherwise
`delay = BaseDelay * ExponentialBase^attemptNumber`, returning `MaxDelay`
when `delay > MaxDelay` and `time.Duration(delay)` otherwise. The final
conversion truncates toward zero, which on an exact rational is `num / den`
in integer division. -/
def Strategy.CalculateRetryDelay (s : Strategy) (attemptNumber : Int) : Int :=
  if attemptNumber ≤ 0 then s.baseDelay
  else
    let delay : ℚ := (s.baseDelay : ℚ) * s.exponentialBase ^ attemptNumber.toNat
    if (s.maxDelay : ℚ) < delay then s.maxDelay
    else delay.num / delay.den

/-- Go `Strategy.ShouldMoveToDLQ`: `attemptCount >= DLQThreshold`. -/
def Strategy.ShouldMoveToDLQ (s : Strategy) (attemptCount : Int) : Bool :=
  decide (s.dlqThreshold ≤ attemptCount)

/-- Go `Strategy.IsRetryable`: `attemptCount < MaxAttempts`. -/
def Strategy.IsRetryable (s : Strategy) (attemptCount : Int) : Bool :=
  decide (attemptCount < s.maxAttempts)

/-- Go `model.Topic`: a message category; `Code` is the unique string key and
`IsActive` flags whether the topic accepts new messages. -/
structure Topic where
  id : Int
  code : String
  name : String
  description : String
  isActive : Bool
  createdAt : Int
deriving DecidableEq, Repr

/-- Go `model.Subscription`: links a subscriber to a topic with an identifier
filter and an active flag (soft delete via `DeletedAt`). -/
structure Subscription where
  id : Int
  subscriberID : Int
  topicID : Int
  identifier : String
  isActive : Bool
  createdAt : Int
  deletedAt : Option Int
deriving DecidableEq, Repr

/-- Go `model.Message`: an immutable published message; `Data` is the opaque
payload (a Go string, modelled as its byte list). -/
structure Message where
  id : Int
  topicID : Int
  identifier : String
  data : List Nat
  createdAt : Int
deriving DecidableEq, Repr

/-- Go `model.NewMessage`: creates a message with `ID = 0` and
`CreatedAt = now`. -/
def NewMessage (topicID : Int) (identifier : String) (data : List Nat) (now : Int) : Message :=
  { id := 0, topicID := topicID, identifier := identifier, data := data, createdAt := now }

/-- The standard base64 alphabet used by Go's `base64.StdEncoding`. -/
def base64Table : List Char :=
  "ABCDEFGHIJKLMNOPQRSTUVWXYZabcdefghijklmnopqrstuvwxyz0123456789+/".data

/-- Character for a 6-bit value in the standard base64 alphabet. -/
def base64Char (n : Nat) : Char :=
  base64Table.getD n 'A'

/-- Go `base64.StdEncoding.EncodeToString`, character list form: 3 input bytes
become 4 output characters; a 1-byte remainder yields two characters plus
`==`, a 2-byte remainder three characters plus `=`. -/
def base64EncodeChars : List Nat → List Char
  | [] => []
  | [b1] =>
      [base64Char (b1 / 4), base64Char (b1 % 4 * 16), '=', '=']
  | [b1, b2] =>
      [base64Char (b1 / 4), base64Char (b1 % 4 * 16 + b2 / 16),
       base64Char (b2 % 16 * 4), '=']
  | b1 :: b2 :: b3 :: rest =>
      base64Char (b1 / 4) :: base64Char (b1 % 4 * 16 + b2 / 16) ::
      base64Char (b2 % 16 * 4 + b3 / 64) :: base64Char (b3 % 64) ::
      base64EncodeChars rest

/-- Go `base64.StdEncoding.EncodeToString` of a payload byte list. -/
def base64Encode (bs : List Nat) : String :=
  String.mk (base64EncodeChars bs)

/-- Go `model.DataMessage`: the delivery envelope handed to the gateway. -/
structure DataMessage where
  messageID : String
  publishTime : Int
  orderingKey : String
  attributes : List (String × String)
  data : String
  identifier : String
deriving DecidableEq, Repr

/-- Go `model.NewDataMessage`: builds an envelope whose attributes map holds
`publisher="wagon"` and `version="1.0"`. The time parameter is ignored by
the Go code (blank identifier), so `PublishTime` and `OrderingKey` stay at
their zero values. -/
def NewDataMessage (messageID : String) (_pt : Int) (identifier data : String) : DataMessage :=
  { messageID := messageID
    publishTime := 0
    orderingKey := ""
    attributes := [("publisher", "wagon"), ("version", "1.0")]
    data := data
    identifier := identifier }

/-- Go `DataMessage.FromString`: parses message data from a string — currently
a no-op in the source, always returning a nil error and touching nothing. -/
def DataMessage.FromString (_d : DataMessage) (_raw : List Nat) : Option String :=
  none

/-- Go `model.DeadLetterQueue`: a permanently failed delivery with denormalized
payload, diagnostics and resolution lifecycle. -/
structure DeadLetterQueue where
  id : Int
  subscriptionID : Int
  messageID : Int
  originalQueueID : Int
  attemptCount : Int
  lastError : String
  failureReason : String
  firstAttemptAt : Int
  lastAttemptAt : Int
  movedToDLQAt : Int
  messageData : List Nat
  callbackURL : String
  isResolved : Bool
  resolvedAt : Option Int
  resolvedBy : String
  resolutionNote : String
  createdAt : Int
deriving DecidableEq, Repr

/-- Go `model.NewDeadLetterQueue`: builds a DLQ entry from a failed queue
item's fields; `MovedToDLQAt` and `CreatedAt` are stamped `now`. -/
def NewDeadLetterQueue (subscriptionID messageID originalQueueID : Int)
    (attemptCount : Int) (lastError failureReason : String)
    (firstAttemptAt lastAttemptAt : Int)
    (messageData : List Nat) (callbackURL : String) (now : Int) : DeadLetterQueue :=
  { id := 0
    subscriptionID := subscriptionID
    messageID := messageID
    originalQueueID := originalQueueID
    attemptCount := attemptCount
    lastError := lastError
    failureReason := failureReason
    firstAttemptAt := firstAttemptAt
    lastAttemptAt := lastAttemptAt
    movedToDLQAt := now
    messageData := messageData
    callbackURL := callbackURL
    isResolved := false
    resolvedAt := none
    resolvedBy := ""
    resolutionNote := ""
    createdAt := now }

/-- Reading `sql.NullTime.Time` directly, as `moveToDLQ` does: the zero time
when the value is not valid. -/
def nullTimeValue (o : Option Int) : Int :=
  o.getD 0

/-- Reading `sql.NullString.String` directly: the empty string when the
value is not valid. -/
def nullStringValue (o : Option String) : String :=
  o.getD ""

/-- Outcomes of the external calls one `processQueueItem` run makes, i.e.
the worker's collaborators (repositories, URL provider, gateway) fixed for
a single item: `none` results stand for the corresponding call returning an
error. `deliverError = none` means the gateway delivered successfully. -/
structure WorkerEnv where
  subscription : Option Subscription
  message : Option Message
  callbackURL : Option String
  deliverError : Option String
  queueSaveOk : Bool
  dlqSaveOk : Bool
  deleteOk : Bool

/-- Go `QueueWorker.prepareMessage`: base64-encodes the message payload, builds
the envelope via `NewDataMessage` with the decimal string of the message id,
then runs the (no-op) `FromString` parse whose nil error makes the error
branch dead. -/
def QueueWorker.prepareMessage (message : Message) : Except String DataMessage :=
  let strBase64 := base64Encode message.data
  let dataMessage :=
    NewDataMessage (toString message.id) message.createdAt message.identifier strBase64
  match dataMessage.FromString message.data with
  | some e => Except.error ("failed to parse message data: " ++ e)
  | none => Except.ok dataMessage

/-- Go `QueueWorker.moveToDLQ`: loads message and subscription (failures
propagate), resolves the callback URL (failure degrades to the literal
`"unknown"`), builds the failure reason, persists a `NewDeadLetterQueue`
entry copied from the queue item, then deletes the queue row (a delete
failure is logged but not returned). The unused Go `_ error` parameter is
kept; the entry's `LastError` comes from the item itself. On success the
persisted entry is returned. -/
def QueueWorker.moveToDLQ (env : WorkerEnv) (dlqThreshold : Int)
    (queueItem : Queue) (_err : Option String) (now : Int) :
    Except String DeadLetterQueue :=
  match env.message with
  | none => Except.error "failed to load message for DLQ"
  | some message =>
    match env.subscription with
    | none => Except.error "failed to load subscription for DLQ"
    | some _subscription =>
      let callbackURL := match env.callbackURL with
        | none => "unknown"
        | some url => url
      let failureReason :=
        "Max retry attempts exceeded (" ++ toString queueItem.attemptCount ++
          " >= " ++ toString dlqThreshold ++ ")"
      let dlqEntry :=
        NewDeadLetterQueue queueItem.subscriptionID queueItem.messageID queueItem.id
          queueItem.attemptCount (nullStringValue queueItem.lastError) failureReason
          queueItem.createdAt (nullTimeValue queueItem.lastAttemptAt)
          message.data callbackURL now
      if env.dlqSaveOk = false then Except.error "failed to save DLQ entry"
      else Except.ok dlqEntry

/-- Go `QueueWorker.handleDeliveryFailure`: computes the next retry delay from
`AttemptCount + 1`, applies `MarkFailed`, persists (an early return on a
failed save skips the DLQ check), and when `ShouldMoveToDLQ` holds invokes
the DLQ transition. Returns the mutated item together with the DLQ entry
created, if any (a failed `moveToDLQ` is logged and yields no entry). -/
def QueueWorker.handleDeliveryFailure (env : WorkerEnv) (strategy : Strategy)
    (queueItem : Queue) (deliveryErr : String) (now : Int) :
    Queue × Option DeadLetterQueue :=
  let retryDelay := strategy.CalculateRetryDelay (queueItem.attemptCount + 1)
  let item := queueItem.MarkFailed (some deliveryErr) retryDelay now
  if env.queueSaveOk = false then (item, none)
  else if item.ShouldMoveToDLQ strategy.dlqThreshold then
    match QueueWorker.moveToDLQ env strategy.dlqThreshold item (some deliveryErr) now with
    | Except.ok entry => (item, some entry)
    | Except.error _ => (item, none)
  else (item, none)

/-- Go `QueueWorker.handleDeliverySuccess`: applies `MarkSent` and persists;
a failed save only logs. Returns the mutated item. -/
def QueueWorker.handleDeliverySuccess (_env : WorkerEnv) (queueItem : Queue) (now : Int) : Queue :=
  queueItem.MarkSent now

/-- Observable outcome of one `processQueueItem` run: the item as the worker
left it in memory, the DLQ entry created (if any), whether the gateway was
invoked, and the error returned (`none` = processed successfully). -/
structure ProcessOutcome where
  item : Queue
  dlqEntry : Option DeadLetterQueue
  dispatched : Bool
  errMsg : Option String
deriving DecidableEq, Repr

/-- Go `QueueWorker.processQueueItem`: the per-item pipeline — eligibility
check, subscription load, message load, payload preparation, callback URL
resolution, gateway dispatch, then the success/failure handler. Every early
return leaves the item untouched and dispatches nothing. -/
def QueueWorker.processQueueItem (env : WorkerEnv) (strategy : Strategy)
    (queueItem : Queue) (now : Int) : ProcessOutcome :=
  match queueItem.CanAttemptDelivery strategy.maxAttempts now with
  | some e => { item := queueItem, dlqEntry := none, dispatched := false,
                errMsg := some e.message }
  | none =>
    match env.subscription with
    | none => { item := queueItem, dlqEntry := none, dispatched := false,
                errMsg := some "failed to load subscription" }
    | some _subscription =>
      match env.message with
      | none => { item := queueItem, dlqEntry := none, dispatched := false,
                  errMsg := some "failed to load message" }
      | some message =>
        match QueueWorker.prepareMessage message with
        | Except.error e =>
            { item := queueItem, dlqEntry := none, dispatched := false,
              errMsg := some ("failed to prepare message: " ++ e) }
        | Except.ok _dataMessage =>
          match env.callbackURL with
          | none => { item := queueItem, dlqEntry := none, dispatched := false,
                      errMsg := some "failed to get callback URL" }
          | some _url =>
            match env.deliverError with
            | some derr =>
                let result := QueueWorker.handleDeliveryFailure env strategy queueItem derr now
                { item := result.1, dlqEntry := result.2, dispatched := true,
                  errMsg := some ("delivery failed: " ++ derr) }
            | none =>
                { item := QueueWorker.handleDeliverySuccess env queueItem now,
                  dlqEntry := none, dispatched := true, errMsg := none }

/-- Go `TopicRepository.GetByTopicCode` (adapters/relica): selects the topic row
whose `topic_code` equals the given code — with no `is_active` filter. -/
def GetByTopicCode (topics : List Topic) (topicCode : String) : Option Topic :=
  topics.find? (fun t => t.code == topicCode)

/-- Go `pubsub.PublishRequest`: topic code, identifier, payload. -/
structure PublishRequest where
  topicCode : String
  identifier : String
  data : List Nat
deriving DecidableEq, Repr

/-- Go `pubsub.PublishResult`: created message id, number of queue items
created, and the subscription ids that received the message. -/
structure PublishResult where
  messageID : Int
  queueItemsCreated : Nat
  subscriptionsIDs : List Int
deriving DecidableEq, Repr

/-- Error kinds `Publisher.Publish` can return. -/
inductive PubErr
  | validation (msg : String)
  | database (msg : String)
deriving DecidableEq, Repr

/-- Outcomes of the external calls one `Publisher.Publish` run makes: the
topic table rows, the id the message store assigns on save, whether the
message save succeeds, the candidate subscription list returned by
`FindActive(0, identifier)`, and the per-subscription success of the queue
item save. -/
structure PubEnv where
  topics : List Topic
  messageSaveID : Int
  messageSaveOk : Bool
  subs : List Subscription
  queueSaveOk : Int → Bool

/-- The per-subscription loop of `Publisher.Publish`: for each surviving
subscription build a `NewQueue` item and save it; a failed save logs and
continues. Returns the collected subscription ids, the count of created
items, and the items actually persisted, in loop order. -/
def createQueueItems (queueSaveOk : Int → Bool) (messageID now : Int) :
    List Subscription → List Int × Nat × List Queue
  | [] => ([], 0, [])
  | subscription :: rest =>
    let queueItem := NewQueue subscription.id messageID now
    let tail := createQueueItems queueSaveOk messageID now rest
    if queueSaveOk subscription.id then
      (subscription.id :: tail.1, tail.2.1 + 1, queueItem :: tail.2.2)
    else tail

/-- Go `Publisher.Publish`: validates the request, resolves the topic by code,
persists the message, filters the candidate subscriptions to those with the
resolved topic's id and `IsActive`, early-returns a zero-count result when
none survive, and otherwise creates one queue item per surviving
subscription. Returns the result together with the queue items persisted. -/
def Publisher.Publish (env : PubEnv) (req : PublishRequest) (now : Int) :
    Except PubErr (PublishResult × List Queue) :=
  if req.topicCode = "" then Except.error (PubErr.validation "topic code is required")
  else if req.identifier = "" then Except.error (PubErr.validation "identifier is required")
  else
    match GetByTopicCode env.topics req.topicCode with
    | none => Except.error (PubErr.validation ("topic not found: " ++ req.topicCode))
    | some topic =>
      if env.messageSaveOk = false then
        Except.error (PubErr.database "failed to save message")
      else
        let message := { NewMessage topic.id req.identifier req.data now with
                         id := env.messageSaveID }
        let activeSubscriptions :=
          env.subs.filter (fun sub => sub.topicID == topic.id && sub.isActive)
        if activeSubscriptions.isEmpty then
          Except.ok ({ messageID := message.id, queueItemsCreated := 0,
                       subscriptionsIDs := [] }, [])
        else
          let created := createQueueItems env.queueSaveOk message.id now activeSubscriptions
          Except.ok ({ messageID := message.id, queueItemsCreated := created.2.1,
                       subscriptionsIDs := created.1 }, created.2.2)

/-! ### Spec-side reference definitions (for refinement comparison) -/

/-- Spec wording of the NOT_READY condition: "`next_retry_at` is unset OR
`now ≤ next_retry_at`". -/
def RetryUnready (o : Option Int) (now : Int) : Prop :=
  o = none ∨ ∃ r, o = some r ∧ now ≤ r

instance (o : Option Int) (now : Int) : Decidable (RetryUnready o now) :=
  match o with
  | none => isTrue (Or.inl rfl)
  | some r =>
    if h : now ≤ r then isTrue (Or.inr ⟨r, rfl, h⟩)
    else
      isFalse (fun hc => by
        rcases hc with h1 | ⟨r2, h2, h3⟩
        · exact Option.noConfusion h1
        · cases Option.some.inj h2
          exact h h3)

/-- Spec operation `can_attempt_delivery` transcribed from the spec's words: `EXPIRED` if
`now > expires_at`; otherwise `ALREADY_SENT` if `status = SENT`; otherwise
`MAX_ATTEMPTS` if `attempt_count ≥ max_attempts`; otherwise `NOT_READY` if
`status = FAILED` and (`next_retry_at` unset or `now ≤ next_retry_at`);
otherwise ok — in exactly this precedence order. -/
def CanAttemptDeliverySpec (t : Queue) (maxAttempts : Int) (now : Int) : Option DomainError :=
  if t.expiresAt < now then some ErrQueueItemExpired
  else if t.status = QueueStatus.sent then some ErrQueueItemAlreadySent
  else if maxAttempts ≤ t.attemptCount then some ErrMaxAttemptsExceeded
  else if t.status = QueueStatus.failed ∧ RetryUnready t.nextRetryAt now then
    some ErrNotReadyForRetry
  else none

/-! ### Concrete fixtures used by witnesses and counterexamples -/

/-- A failed queue item carrying a previous delivery error. -/
def failedItemWithError : Queue :=
  { id := 1, subscriptionID := 2, messageID := 3, status := QueueStatus.failed,
    attemptCount := 1, lastAttemptAt := some 50, nextRetryAt := some 90,
    lastError := some "boom", expiresAt := 1000000, sequenceNumber := 0,
    operationTimestamp := 10, retryAt := none, isComplete := false,
    completedAt := none, createdAt := 10 }

/-- A failed queue item one failure short of the default DLQ threshold. -/
def nearThresholdItem : Queue :=
  { id := 21, subscriptionID := 22, messageID := 23, status := QueueStatus.failed,
    attemptCount := 4, lastAttemptAt := some 80, nextRetryAt := some 90,
    lastError := some "old error", expiresAt := 1000000, sequenceNumber := 0,
    operationTimestamp := 10, retryAt := none, isComplete := false,
    completedAt := none, createdAt := 10 }

/-- A second near-threshold item, eligible for retry at `now = 100`. -/
def retryableNearThresholdItem : Queue :=
  { id := 31, subscriptionID := 32, messageID := 33, status := QueueStatus.failed,
    attemptCount := 4, lastAttemptAt := some 70, nextRetryAt := some 90,
    lastError := some "older error", expiresAt := 1000000, sequenceNumber := 0,
    operationTimestamp := 10, retryAt := none, isComplete := false,
    completedAt := none, createdAt := 10 }

/-- An already delivered (SENT) queue item. -/
def sentItem : Queue :=
  { id := 41, subscriptionID := 42, messageID := 43, status := QueueStatus.sent,
    attemptCount := 0, lastAttemptAt := some 60, nextRetryAt := some 10,
    lastError := none, expiresAt := 1000000, sequenceNumber := 0,
    operationTimestamp := 10, retryAt := none, isComplete := true,
    completedAt := some 60, createdAt := 10 }

/-- A subscription fixture. -/
def subscriptionFixture : Subscription :=
  { id := 5, subscriberID := 7, topicID := 1, identifier := "user.created",
    isActive := true, createdAt := 0, deletedAt := none }

/-- A message fixture. -/
def messageFixture : Message :=
  { id := 3, topicID := 1, identifier := "user.created", data := [77, 97, 110],
    createdAt := 5 }

/-- A worker environment in which every collaborator call succeeds and the
gateway reports the delivery error `"boom"`. -/
def failingDeliveryEnv : WorkerEnv :=
  { subscription := some subscriptionFixture, message := some messageFixture,
    callbackURL := some "https://example.com/hook", deliverError := some "boom",
    queueSaveOk := true, dlqSaveOk := true, deleteOk := true }

/-- A worker environment whose gateway reports the delivery error `"dead"`. -/
def failingDeliveryEnvB : WorkerEnv :=
  { subscription := some subscriptionFixture, message := some messageFixture,
    callbackURL := some "https://example.com/hook", deliverError := some "dead",
    queueSaveOk := true, dlqSaveOk := true, deleteOk := true }

/-- A publisher environment: one active topic, one matching active
subscription, one matching inactive subscription, one active subscription on
another topic; every store call succeeds. -/
def publishEnvFixture : PubEnv :=
  { topics := [{ id := 1, code := "user.signup", name := "Signup",
                 description := "", isActive := true, createdAt := 0 }]
    messageSaveID := 11
    messageSaveOk := true
    subs := [{ id := 5, subscriberID := 7, topicID := 1, identifier := "u1",
               isActive := true, createdAt := 0, deletedAt := none },
             { id := 6, subscriberID := 8, topicID := 1, identifier := "u1",
               isActive := false, createdAt := 0, deletedAt := some 9 },
             { id := 9, subscriberID := 7, topicID := 2, identifier := "u1",
               isActive := true, createdAt := 0, deletedAt := none }]
    queueSaveOk := fun _ => true }

/-- A publisher environment whose only topic row is inactive and has one
active matching subscription. -/
def inactiveTopicEnv : PubEnv :=
  { topics := [{ id := 1, code := "user.signup", name := "Signup",
                 description := "", isActive := false, createdAt := 0 }]
    messageSaveID := 11
    messageSaveOk := true
    subs := [{ id := 5, subscriberID := 7, topicID := 1, identifier := "u1",
               isActive := true, createdAt := 0, deletedAt := none }]
    queueSaveOk := fun _ => true }

/-- The topic row of `publishEnvFixture`. -/
def topicFixture : Topic :=
  { id := 1, code := "user.signup", name := "Signup", description := "",
    isActive := true, createdAt := 0 }

/-- The near-threshold item after the worker marks its fifth failure at
`now = 100`. -/
def markedNearThresholdItem : Queue :=
  nearThresholdItem.MarkFailed (some "boom")
    (DefaultStrategy.CalculateRetryDelay (nearThresholdItem.attemptCount + 1)) 100

/-- The DLQ entry the worker writes for `markedNearThresholdItem`. -/
def dlqWitnessEntry : DeadLetterQueue :=
  NewDeadLetterQueue markedNearThresholdItem.subscriptionID
    markedNearThresholdItem.messageID markedNearThresholdItem.id
    markedNearThresholdItem.attemptCount
    (nullStringValue markedNearThresholdItem.lastError)
    ("Max retry attempts exceeded (" ++ toString markedNearThresholdItem.attemptCount ++
      " >= " ++ toString DefaultStrategy.dlqThreshold ++ ")")
    markedNearThresholdItem.createdAt
    (nullTimeValue markedNearThresholdItem.lastAttemptAt)
    messageFixture.data "https://example.com/hook" 100

/-- The second near-threshold item after the worker marks its fifth failure
at `now = 100`. -/
def markedRetryableItem : Queue :=
  retryableNearThresholdItem.MarkFailed (some "dead")
    (DefaultStrategy.CalculateRetryDelay (retryableNearThresholdItem.attemptCount + 1)) 100

/-- The DLQ entry the worker writes for `markedRetryableItem`. -/
def dlqWitnessEntryB : DeadLetterQueue :=
  NewDeadLetterQueue markedRetryableItem.subscriptionID
    markedRetryableItem.messageID markedRetryableItem.id
    markedRetryableItem.attemptCount
    (nullStringValue markedRetryableItem.lastError)
    ("Max retry attempts exceeded (" ++ toString markedRetryableItem.attemptCount ++
      " >= " ++ toString DefaultStrategy.dlqThreshold ++ ")")
    markedRetryableItem.createdAt
    (nullTimeValue markedRetryableItem.lastAttemptAt)
    messageFixture.data "https://example.com/hook" 100

/-! ## Helper lemmas -/

/-- Unrolling the publisher's per-subscription loop: it persists exactly the
items whose save succeeds, in order, and reports their ids and count. -/
theorem createQueueItems_spec (ok : Int → Bool) (msgID now : Int) (l : List Subscription) :
    createQueueItems ok msgID now l =
      ((l.filter (fun s => ok s.id)).map (fun s => s.id),
       (l.filter (fun s => ok s.id)).length,
       (l.filter (fun s => ok s.id)).map (fun s => NewQueue s.id msgID now)) := by
  induction l with
  | nil => simp [createQueueItems]
  | cons a rest ih =>
      by_cases h : ok a.id <;> simp [createQueueItems, h, ih, List.filter_cons]

/-- When `moveToDLQ` succeeds, the entry copies the item's attempt count,
`LastAttemptAt` (read through the raw `sql.NullTime.Time` field) and
`CreatedAt`. -/
theorem moveToDLQ_ok_fields (env : WorkerEnv) (thr : Int) (q : Queue) (err : Option String)
    (now : Int) (e : DeadLetterQueue)
    (h : QueueWorker.moveToDLQ env thr q err now = Except.ok e) :
    e.attemptCount = q.attemptCount ∧ e.lastAttemptAt = nullTimeValue q.lastAttemptAt ∧
    e.firstAttemptAt = q.createdAt := by
  unfold QueueWorker.moveToDLQ at h
  rcases hm : env.message with _ | message
  · rw [hm] at h
    exact absurd h (by simp)
  · rw [hm] at h
    dsimp only at h
    rcases hs : env.subscription with _ | sub
    · rw [hs] at h
      exact absurd h (by simp)
    · rw [hs] at h
      dsimp only at h
      by_cases hd : env.dlqSaveOk = false
      · rw [if_pos hd] at h
        exact absurd h (by simp)
      · rw [if_neg hd] at h
        simp only [Except.ok.injEq] at h
        subst h
        exact ⟨rfl, rfl, rfl⟩

/-- A DLQ entry comes out of `handleDeliveryFailure` only when the freshly
`MarkFailed` item satisfies `ShouldMoveToDLQ` and the `moveToDLQ` transition
succeeded on that item. -/
theorem handleDeliveryFailure_dlq_some (env : WorkerEnv) (s : Strategy) (q : Queue)
    (derr : String) (now : Int) (q2 : Queue) (e : DeadLetterQueue)
    (h : QueueWorker.handleDeliveryFailure env s q derr now = (q2, some e)) :
    q2 = q.MarkFailed (some derr) (s.CalculateRetryDelay (q.attemptCount + 1)) now ∧
    q2.ShouldMoveToDLQ s.dlqThreshold = true ∧
    QueueWorker.moveToDLQ env s.dlqThreshold q2 (some derr) now = Except.ok e := by
  unfold QueueWorker.handleDeliveryFailure at h
  dsimp only at h
  by_cases hsave : env.queueSaveOk = false
  · rw [if_pos hsave] at h
    simp only [Prod.mk.injEq] at h
    exact absurd h.2 (by simp)
  · rw [if_neg hsave] at h
    by_cases hshould :
        (q.MarkFailed (some derr) (s.CalculateRetryDelay (q.attemptCount + 1))
          now).ShouldMoveToDLQ s.dlqThreshold = true
    · rw [if_pos hshould] at h
      rcases hmv : QueueWorker.moveToDLQ env s.dlqThreshold
          (q.MarkFailed (some derr) (s.CalculateRetryDelay (q.attemptCount + 1)) now)
          (some derr) now with e2 | entry
      · rw [hmv] at h
        simp only [Prod.mk.injEq] at h
        exact absurd h.2 (by simp)
      · rw [hmv] at h
        simp only [Prod.mk.injEq, Option.some.injEq] at h
        obtain ⟨hq2, he⟩ := h
        subst hq2
        subst he
        exact ⟨rfl, hshould, hmv⟩
    · rw [if_neg hshould] at h
      simp only [Prod.mk.injEq] at h
      exact absurd h.2 (by simp)

/-! ## Claim theorems -/

/-- C1 (counterexample): the claim says a nil error clears `last_error`, but
`MarkFailed` only writes `last_error` when the error is non-nil — on this
item the stale `"boom"` survives a nil-error `MarkFailed`. -/
theorem markFailed_nil_keeps_lastError :
    (failedItemWithError.MarkFailed none (5 * Second) 100).lastError = some "boom" ∧
    (failedItemWithError.MarkFailed none (5 * Second) 100).lastError ≠ none := by
  refine ⟨rfl, ?_⟩
  intro h
  exact Option.noConfusion h

/-- C1 (amended): `mark_failed(err, d)` sets status FAILED, increments the
attempt count by exactly one, stamps `last_attempt_at = now`, sets
`next_retry_at = now + d`, and stores the error message when `err` is
non-null; when `err` is null, `last_error` is left unchanged (not cleared). -/
theorem markFailed_spec (q : Queue) (err : Option String) (d now : Int) :
    (q.MarkFailed err d now).status = QueueStatus.failed ∧
    (q.MarkFailed err d now).attemptCount = q.attemptCount + 1 ∧
    (q.MarkFailed err d now).lastAttemptAt = some now ∧
    (q.MarkFailed err d now).nextRetryAt = some (now + d) ∧
    (∀ m : String, err = some m → (q.MarkFailed err d now).lastError = some m) ∧
    (err = none → (q.MarkFailed err d now).lastError = q.lastError) := by
  refine ⟨rfl, rfl, rfl, rfl, ?_, ?_⟩
  · intro m hm
    subst hm
    rfl
  · intro hn
    subst hn
    rfl

/-- Witness for C1 (amended) at a concrete item, for a non-null and a null
error. -/
theorem markFailed_spec_witness :
    (failedItemWithError.MarkFailed (some "x") (5 * Second) 100).lastError = some "x" ∧
    (failedItemWithError.MarkFailed none (7 * Second) 200).lastError =
      failedItemWithError.lastError :=
  ⟨(markFailed_spec failedItemWithError (some "x") (5 * Second) 100).2.2.2.2.1 "x" rfl,
   (markFailed_spec failedItemWithError none (7 * Second) 200).2.2.2.2.2 rfl⟩

/-- C2: the default strategy's delay table — 30s at attempt 0, doubling from
60s at attempt 1 up to 960s at attempt 5, the 1800s cap for every attempt
`≥ 6`, and the cap bounds the result for every attempt `≥ 1` (no overflow
for huge attempt numbers). -/
theorem defaultStrategy_delay_laws :
    DefaultStrategy.CalculateRetryDelay 0 = 30 * Second ∧
    DefaultStrategy.CalculateRetryDelay 1 = 60 * Second ∧
    DefaultStrategy.CalculateRetryDelay 2 = 120 * Second ∧
    DefaultStrategy.CalculateRetryDelay 3 = 240 * Second ∧
    DefaultStrategy.CalculateRetryDelay 4 = 480 * Second ∧
    DefaultStrategy.CalculateRetryDelay 5 = 960 * Second ∧
    (∀ n : Int, 6 ≤ n → DefaultStrategy.CalculateRetryDelay n = 1800 * Second) ∧
    (∀ n : Int, 1 ≤ n → DefaultStrategy.CalculateRetryDelay n ≤ DefaultStrategy.maxDelay) := by
  refine ⟨by decide, ?_, ?_, ?_, ?_, ?_, ?_, ?_⟩
  · simp [Strategy.CalculateRetryDelay, DefaultStrategy, Second, Minute]
    norm_num
  · simp [Strategy.CalculateRetryDelay, DefaultStrategy, Second, Minute]
    norm_num
  · simp [Strategy.CalculateRetryDelay, DefaultStrategy, Second, Minute]
    norm_num
  · simp [Strategy.CalculateRetryDelay, DefaultStrategy, Second, Minute]
    norm_num
  · simp [Strategy.CalculateRetryDelay, DefaultStrategy, Second, Minute]
    norm_num
  · intro n hn
    have hn0 : ¬ n ≤ 0 := by omega
    have h6 : (6 : ℕ) ≤ n.toNat := by omega
    have hpow : (2 : ℚ) ^ (6 : ℕ) ≤ (2 : ℚ) ^ n.toNat :=
      pow_le_pow_right₀ (by norm_num) h6
    simp only [Strategy.CalculateRetryDelay, DefaultStrategy, if_neg hn0]
    rw [if_pos]
    · norm_num [Second, Minute]
    · have h1 : ((30 * Second : Int) : ℚ) * 2 ^ (6 : ℕ) ≤
          ((30 * Second : Int) : ℚ) * 2 ^ n.toNat := by
        apply mul_le_mul_of_nonneg_left hpow
        norm_num [Second]
      have h2 : ((30 * Minute : Int) : ℚ) < ((30 * Second : Int) : ℚ) * 2 ^ (6 : ℕ) := by
        norm_num [Second, Minute]
      linarith
  · intro n hn
    have hn0 : ¬ n ≤ 0 := by omega
    simp only [Strategy.CalculateRetryDelay, DefaultStrategy, if_neg hn0]
    by_cases hc : ((30 * Minute : Int) : ℚ) < ((30 * Second : Int) : ℚ) * 2 ^ n.toNat
    · rw [if_pos hc]
    · rw [if_neg hc]
      push_neg at hc
      have hfl : (((30 * Second : Int) : ℚ) * 2 ^ n.toNat).num /
          (((30 * Second : Int) : ℚ) * 2 ^ n.toNat).den =
          Int.floor (((30 * Second : Int) : ℚ) * 2 ^ n.toNat) := Rat.floor_def.symm
      rw [hfl]
      calc Int.floor (((30 * Second : Int) : ℚ) * 2 ^ n.toNat)
          ≤ Int.floor (((30 * Minute : Int) : ℚ)) := Int.floor_le_floor hc
        _ = 30 * Minute := Int.floor_intCast _

/-- Witness for C2 at concrete attempt numbers 8 and 123456. -/
theorem defaultStrategy_delay_laws_witness :
    DefaultStrategy.CalculateRetryDelay 8 = 1800 * Second ∧
    DefaultStrategy.CalculateRetryDelay 123456 ≤ DefaultStrategy.maxDelay :=
  ⟨defaultStrategy_delay_laws.2.2.2.2.2.2.1 8 (by decide),
   defaultStrategy_delay_laws.2.2.2.2.2.2.2 123456 (by decide)⟩

/-- C3: `CanAttemptDelivery` agrees with the spec's check order and strict
clock comparisons — EXPIRED (`now > expires_at`) overrides ALREADY_SENT
overrides MAX_ATTEMPTS (`attempt_count ≥ max`) overrides NOT_READY
(`status = FAILED` and `next_retry_at` unset or `now ≤ next_retry_at`, so
`now = next_retry_at` means not yet ready); otherwise ok. -/
theorem canAttemptDelivery_matches_spec (t : Queue) (maxAttempts now : Int) :
    t.CanAttemptDelivery maxAttempts now = CanAttemptDeliverySpec t maxAttempts now := by
  unfold Queue.CanAttemptDelivery CanAttemptDeliverySpec Queue.IsExpired Queue.ShouldRetry
  by_cases h1 : t.expiresAt < now
  · simp [h1]
  · by_cases h2 : t.status = QueueStatus.sent
    · simp [h1, h2]
    · by_cases h3 : maxAttempts ≤ t.attemptCount
      · simp [h1, h2, h3]
      · rcases hn : t.nextRetryAt with _ | r
        · cases hst : t.status <;> simp_all [RetryUnready] <;> split_ifs <;>
            first | rfl | omega
        · by_cases h5 : now ≤ r
          · have hr : ¬ (r < now) := by omega
            cases hst : t.status <;> simp_all [RetryUnready] <;> split_ifs <;>
              first | rfl | omega
          · have hr : r < now := by omega
            cases hst : t.status <;> simp_all [RetryUnready] <;> split_ifs <;>
              first | rfl | omega

/-- C4: a validated publish with a resolved topic and a persisted message
creates one PENDING queue item with `attempt_count = 0` and
`next_retry_at = now` for exactly the candidate subscriptions matching the
topic id and active flag whose save succeeds (a failed save skips only that
subscription); zero matches still succeed with zero items. -/
theorem publish_fanout (env : PubEnv) (req : PublishRequest) (now : Int) (topic : Topic)
    (h1 : req.topicCode ≠ "") (h2 : req.identifier ≠ "")
    (h3 : GetByTopicCode env.topics req.topicCode = some topic)
    (h4 : env.messageSaveOk = true) :
    ∃ res items,
      Publisher.Publish env req now = Except.ok (res, items) ∧
      items = ((env.subs.filter (fun sub => sub.topicID == topic.id && sub.isActive)).filter
                (fun sub => env.queueSaveOk sub.id)).map
              (fun sub => NewQueue sub.id env.messageSaveID now) ∧
      res.messageID = env.messageSaveID ∧
      res.queueItemsCreated = items.length ∧
      res.subscriptionsIDs = items.map (fun q => q.subscriptionID) ∧
      ∀ q ∈ items, q.status = QueueStatus.pending ∧ q.attemptCount = 0 ∧
        q.nextRetryAt = some now := by
  unfold Publisher.Publish
  rw [if_neg h1, if_neg h2, h3]
  dsimp only
  rw [h4]
  rw [if_neg (by simp : ¬ (true = false))]
  by_cases hemp : (env.subs.filter (fun sub => sub.topicID == topic.id && sub.isActive)).isEmpty
  · rw [if_pos hemp]
    have hnil : env.subs.filter (fun sub => sub.topicID == topic.id && sub.isActive) = [] :=
      List.isEmpty_iff.mp hemp
    refine ⟨_, _, rfl, ?_, rfl, ?_, ?_, ?_⟩
    · simp [hnil]
    · simp [hnil]
    · simp [hnil]
    · simp [hnil]
  · rw [if_neg hemp]
    rw [createQueueItems_spec]
    refine ⟨_, _, rfl, rfl, rfl, ?_, ?_, ?_⟩
    · simp
    · simp [List.map_map, NewQueue]
    · intro q hq
      simp only [List.mem_map] at hq
      obtain ⟨s, hs, hqeq⟩ := hq
      subst hqeq
      exact ⟨rfl, rfl, rfl⟩

/-- Witness for C4 on a concrete store: one matching active subscription is
kept, an inactive one and one on another topic are skipped. -/
theorem publish_fanout_witness :
    ∃ res items,
      Publisher.Publish publishEnvFixture
        { topicCode := "user.signup", identifier := "u1", data := [123, 125] } 100 =
        Except.ok (res, items) ∧
      items = ((publishEnvFixture.subs.filter
                (fun sub => sub.topicID == topicFixture.id && sub.isActive)).filter
                (fun sub => publishEnvFixture.queueSaveOk sub.id)).map
              (fun sub => NewQueue sub.id publishEnvFixture.messageSaveID 100) ∧
      res.messageID = publishEnvFixture.messageSaveID ∧
      res.queueItemsCreated = items.length ∧
      res.subscriptionsIDs = items.map (fun q => q.subscriptionID) ∧
      ∀ q ∈ items, q.status = QueueStatus.pending ∧ q.attemptCount = 0 ∧
        q.nextRetryAt = some 100 :=
  publish_fanout publishEnvFixture
    { topicCode := "user.signup", identifier := "u1", data := [123, 125] } 100 topicFixture
    (by decide) (by decide) rfl rfl

/-- C5: the worker produces a DLQ entry only for an item that is FAILED with
`attempt_count ≥ dlq_threshold` after the failure was recorded, and the
entry copies that attempt count — hence the entry's `attempt_count` is at
least the threshold. -/
theorem worker_dlq_entry_threshold (env : WorkerEnv) (s : Strategy) (q : Queue)
    (derr : String) (now : Int) (q2 : Queue) (e : DeadLetterQueue)
    (h : QueueWorker.handleDeliveryFailure env s q derr now = (q2, some e)) :
    q2.status = QueueStatus.failed ∧ e.attemptCount = q2.attemptCount ∧
    s.dlqThreshold ≤ e.attemptCount := by
  obtain ⟨hq2, hshould, hmv⟩ := handleDeliveryFailure_dlq_some env s q derr now q2 e h
  obtain ⟨hatt, hlast, hfirst⟩ := moveToDLQ_ok_fields env s.dlqThreshold q2 (some derr) now e hmv
  simp only [Queue.ShouldMoveToDLQ, Bool.and_eq_true, decide_eq_true_eq] at hshould
  refine ⟨hshould.2, hatt, ?_⟩
  rw [hatt]
  exact hshould.1

/-- Witness for C5: the fifth consecutive failure of a concrete item crosses
the default threshold of 5 and the created entry records 5 attempts. -/
theorem worker_dlq_entry_threshold_witness :
    markedNearThresholdItem.status = QueueStatus.failed ∧
    dlqWitnessEntry.attemptCount = markedNearThresholdItem.attemptCount ∧
    DefaultStrategy.dlqThreshold ≤ dlqWitnessEntry.attemptCount :=
  worker_dlq_entry_threshold failingDeliveryEnv DefaultStrategy nearThresholdItem "boom" 100
    markedNearThresholdItem dlqWitnessEntry rfl

/-- C6 (code evaluation at the failing input): the repository resolves the
topic by code alone and `Publish` never consults `is_active`, so a publish
to this inactive topic persists a message and creates a queue item instead
of being rejected. -/
theorem publish_accepts_inactive_topic :
    (∃ t, GetByTopicCode inactiveTopicEnv.topics "user.signup" = some t ∧
      t.isActive = false) ∧
    Publisher.Publish inactiveTopicEnv
      { topicCode := "user.signup", identifier := "u1", data := [] } 100 =
      Except.ok ({ messageID := 11, queueItemsCreated := 1, subscriptionsIDs := [5] },
                 [NewQueue 5 11 100]) := by
  constructor
  · exact ⟨_, rfl, rfl⟩
  · rfl

/-- C7: a SENT item handed to `processQueueItem` is rejected by the
eligibility check before any mutation — the outcome returns the item
unchanged, dispatches nothing to the gateway, and creates no DLQ entry. -/
theorem sent_item_never_redispatched (env : WorkerEnv) (s : Strategy) (q : Queue) (now : Int)
    (h : q.status = QueueStatus.sent) :
    ∃ msg, QueueWorker.processQueueItem env s q now =
      { item := q, dlqEntry := none, dispatched := false, errMsg := some msg } := by
  have hc : q.CanAttemptDelivery s.maxAttempts now =
      some (if q.IsExpired now then ErrQueueItemExpired else ErrQueueItemAlreadySent) := by
    unfold Queue.CanAttemptDelivery
    by_cases he : q.IsExpired now
    · simp [he]
    · simp [he, h]
  unfold QueueWorker.processQueueItem
  rw [hc]
  exact ⟨_, rfl⟩

/-- Witness for C7 on a concrete SENT item handed to the worker as if a
retryable query had wrongly returned it. -/
theorem sent_item_never_redispatched_witness :
    ∃ msg, QueueWorker.processQueueItem failingDeliveryEnv DefaultStrategy sentItem 100 =
      { item := sentItem, dlqEntry := none, dispatched := false, errMsg := some msg } :=
  sent_item_never_redispatched failingDeliveryEnv DefaultStrategy sentItem 100 rfl

/-- C8: the delivery envelope carries the decimal string of the message id,
the message identifier, the base64 encoding of the payload bytes, an
attributes map holding `publisher="wagon"` and `version="1.0"`, and an empty
ordering key; the base64 encoder matches the RFC 4648 test vectors. -/
theorem prepareMessage_envelope :
    (∀ m : Message, ∃ dm, QueueWorker.prepareMessage m = Except.ok dm ∧
      dm.messageID = toString m.id ∧ dm.identifier = m.identifier ∧
      dm.data = base64Encode m.data ∧
      dm.attributes = [("publisher", "wagon"), ("version", "1.0")] ∧
      dm.orderingKey = "") ∧
    base64Encode [77, 97, 110] = "TWFu" ∧
    base64Encode [77, 97] = "TWE=" ∧
    base64Encode [77] = "TQ==" :=
  ⟨fun _ => ⟨_, rfl, rfl, rfl, rfl, rfl, rfl⟩, by decide, by decide, by decide⟩

/-- C9: `mark_sent()` sets status SENT and stamps both `last_attempt_at` and
`completed_at` to now, while `attempt_count` keeps its pre-call value. -/
theorem markSent_spec (q : Queue) (now : Int) :
    (q.MarkSent now).status = QueueStatus.sent ∧
    (q.MarkSent now).lastAttemptAt = some now ∧
    (q.MarkSent now).completedAt = some now ∧
    (q.MarkSent now).isComplete = true ∧
    (q.MarkSent now).attemptCount = q.attemptCount :=
  ⟨rfl, rfl, rfl, rfl, rfl⟩

/-- C10: a DLQ entry produced by `processQueueItem` can only arise on the
delivery-failure path, immediately after `MarkFailed` stamped the item, so
the item's `last_attempt_at` is set to the failure instant and the entry's
`last_attempt_at` equals that instant (no zero-value fallback is needed). -/
theorem dlq_entry_from_failure_handler (env : WorkerEnv) (s : Strategy) (q : Queue)
    (now : Int) (e : DeadLetterQueue)
    (h2 : (QueueWorker.processQueueItem env s q now).dlqEntry = some e) :
    (∃ derr, env.deliverError = some derr) ∧
    (QueueWorker.processQueueItem env s q now).item.lastAttemptAt = some now ∧
    e.lastAttemptAt = now := by
  unfold QueueWorker.processQueueItem at h2 ⊢
  rcases hc : q.CanAttemptDelivery s.maxAttempts now with _ | e0
  case some =>
    rw [hc] at h2
    simp at h2
  rw [hc] at h2
  dsimp only at h2 ⊢
  rcases hsub : env.subscription with _ | sub
  case none =>
    rw [hsub] at h2
    simp at h2
  rw [hsub] at h2
  dsimp only at h2 ⊢
  rcases hmsg : env.message with _ | message
  case none =>
    rw [hmsg] at h2
    simp at h2
  rw [hmsg] at h2
  dsimp only at h2 ⊢
  rcases hprep : QueueWorker.prepareMessage message with perr | pm
  case error =>
    rw [hprep] at h2
    simp at h2
  rw [hprep] at h2
  dsimp only at h2 ⊢
  rcases hurl : env.callbackURL with _ | url
  case none =>
    rw [hurl] at h2
    simp at h2
  rw [hurl] at h2
  dsimp only at h2 ⊢
  rcases hdel : env.deliverError with _ | derr
  case none =>
    rw [hdel] at h2
    simp at h2
  rw [hdel] at h2
  dsimp only at h2 ⊢
  have hP : QueueWorker.handleDeliveryFailure env s q derr now =
      ((QueueWorker.handleDeliveryFailure env s q derr now).1, some e) :=
    Prod.ext rfl h2
  obtain ⟨hq2, hshould, hmv⟩ := handleDeliveryFailure_dlq_some env s q derr now _ e hP
  obtain ⟨hatt, hlast, hfirst⟩ :=
    moveToDLQ_ok_fields env s.dlqThreshold _ (some derr) now e hmv
  refine ⟨⟨derr, rfl⟩, ?_, ?_⟩
  · rw [hq2]
    rfl
  · rw [hlast, hq2]
    rfl

/-- Witness for C10: a concrete retryable item whose fifth failure moves it
to the DLQ; the produced entry's `last_attempt_at` is the failure instant
100. -/
theorem dlq_entry_from_failure_handler_witness :
    (∃ derr, failingDeliveryEnvB.deliverError = some derr) ∧
    (QueueWorker.processQueueItem failingDeliveryEnvB DefaultStrategy
      retryableNearThresholdItem 100).item.lastAttemptAt = some 100 ∧
    dlqWitnessEntryB.lastAttemptAt = 100 :=
  dlq_entry_from_failure_handler failingDeliveryEnvB DefaultStrategy
    retryableNearThresholdItem 100 dlqWitnessEntryB rfl

end Pubsub
